import Mathlib

/-!
Verification of the JVC D-ILA projector LAN protocol client (`jvc.js`).

Byte strings are modelled as `List Char` (all protocol bytes are Latin-1,
so characters and bytes are in bijection).  JavaScript exceptions are
modelled with `Except`; the JavaScript values that flow out of decode
functions (`undefined`, `null`, `Power` instances, numbers, strings) are
modelled by the `JSValue` sum.  Socket reads are modelled by consuming a
prefix of an input stream: `read(n)` returns the first `n` bytes when the
stream holds at least `n`, and a timeout error otherwise (promise-socket
raises `TimeoutError` when the requested bytes never arrive).
-/

/-- The five power states (`class Power` static instances in `jvc.js`). -/
inductive Power where
  | Off
  | On
  | Cooling
  | Warming
  | Emergency
deriving DecidableEq, Repr

/-- JavaScript values produced by the client: `undefined`, `null`,
a `Power` instance, a finite number, `NaN`, or a (Latin-1) string. -/
inductive JSValue where
  | undefined
  | nullv
  | power (p : Power)
  | num (n : Int)
  | nan
  | str (s : List Char)
deriving DecidableEq, Repr

/-- Errors thrown by the client: `CommandError(msg)` from `jvc.js`, and
promise-socket's `TimeoutError` for a read that never completes. -/
inductive JvcError where
  | commandError (msg : String)
  | timeoutError
deriving DecidableEq, Repr

/-- `const UNIT_ID = "\x89\x01"` in `jvc.js`. -/
def UNIT_ID : List Char := [Char.ofNat 0x89, Char.ofNat 0x01]

/-- `ACK = "\x06"` marker byte. -/
def ACK : Char := Char.ofNat 0x06

/-- `OPERATION = "!"` marker byte. -/
def OPERATION : Char := '!'

/-- `REFERENCE = "?"` marker byte. -/
def REFERENCE : Char := '?'

/-- `RESPONSE = "@"` marker byte. -/
def RESPONSE : Char := '@'

/-- `END = "\n"` terminator byte. -/
def ENDB : Char := '\n'

/-- A command's direction: the `type` field of `class Command` holds the
`OPERATION` or `REFERENCE` marker. -/
inductive CmdType where
  | operation
  | reference
deriving DecidableEq, Repr

/-- The marker character stored in a command's `type` field. -/
def CmdType.marker : CmdType → Char
  | .operation => OPERATION
  | .reference => REFERENCE

/-- `class Command { constructor(type, code, length, decode) }`.
Operation commands are constructed with only two arguments, so their
`length` and `decode` fields are `undefined`: modelled with `Option`. -/
structure Command where
  type : CmdType
  code : List Char
  length : Option Nat
  decode : Option (List Char → JSValue)

/-- `Command.#Operation = (...args) => new Command(OPERATION, ...args)`. -/
def Command.mkOperation (code : List Char) : Command :=
  ⟨.operation, code, none, none⟩

/-- `Command.#Reference = (...args) => new Command(REFERENCE, ...args)`. -/
def Command.mkReference (code : List Char) (length : Nat)
    (decode : List Char → JSValue) : Command :=
  ⟨.reference, code, some length, some decode⟩

/-- `get request() { return bytes(`${this.type}${UNIT_ID}${this.code}\n`) }`. -/
def Command.request (c : Command) : List Char :=
  c.type.marker :: UNIT_ID ++ c.code ++ [ENDB]

/-- `get ack() { return bytes(`${ACK}${UNIT_ID}${this.code.substr(0, 2)}\n`) }`. -/
def Command.ack (c : Command) : List Char :=
  ACK :: UNIT_ID ++ c.code.take 2 ++ [ENDB]

/-- `get response_prefix()`: `RESPONSE ++ UNIT_ID ++ code.substr(0, 2)`. -/
def Command.responseStart (c : Command) : List Char :=
  RESPONSE :: UNIT_ID ++ c.code.take 2

/-- `get response_length() { return 5 + this.length + 1 }` (references only;
for operations the field is never used, `getD 0` is a harmless total default). -/
def Command.response_length (c : Command) : Nat :=
  5 + c.length.getD 0 + 1

/-- The decode function of `Command.Reference.Power`: a JavaScript object
lookup `{0: Off, 1: On, 2: Cooling, 3: Warming, 4: Emergency}[c]` keyed by
the payload string; a missing key yields `undefined`. -/
def powerDecode (c : List Char) : JSValue :=
  if c = ['0'] then .power .Off
  else if c = ['1'] then .power .On
  else if c = ['2'] then .power .Cooling
  else if c = ['3'] then .power .Warming
  else if c = ['4'] then .power .Emergency
  else .undefined

/-- Leading decimal digits of a string, `none` when there are none
(the `NaN` case of `parseInt`). -/
def parseDigits (s : List Char) : Option Nat :=
  let ds := s.takeWhile fun c => '0' ≤ c ∧ c ≤ '9'
  if ds.isEmpty then none
  else some (ds.foldl (fun acc c => 10 * acc + (c.toNat - 48)) 0)

/-- JavaScript `parseInt` restricted to the inputs this protocol produces:
an optional sign followed by decimal digits; `none` models `NaN`.
(The builtin also trims whitespace and detects `0x` prefixes; the device
payloads decoded here are bare digit strings, where the semantics agree.) -/
def jsParseInt (s : List Char) : Option Int :=
  match s with
  | '-' :: rest => (parseDigits rest).map fun n => -(n : Int)
  | '+' :: rest => (parseDigits rest).map fun n => (n : Int)
  | _ => (parseDigits s).map fun n => (n : Int)

/-- The decode function of `Command.Reference.LensMemory`:
`(c) => parseInt(c) + 1`; `NaN + 1` stays `NaN`. -/
def lensDecode (c : List Char) : JSValue :=
  match jsParseInt c with
  | some n => .num (n + 1)
  | none => .nan

/-- `Command.Operation.Null`: code is two NUL bytes. -/
def Command.Operation.Null : Command :=
  Command.mkOperation [Char.ofNat 0, Char.ofNat 0]

/-- `Command.Operation.Power.Off = Operation("PW0")`. -/
def Command.Operation.PowerOff : Command :=
  Command.mkOperation ("PW0".toList)

/-- `Command.Operation.Power.On = Operation("PW1")`. -/
def Command.Operation.PowerOn : Command :=
  Command.mkOperation ("PW1".toList)

/-- The `Command.Operation.LensMemory` object: keys 1–10 map to operation
commands `INML0` … `INML9`; indexing with any other key yields `undefined`
(modelled as `none`). -/
def Command.Operation.LensMemory (k : Int) : Option Command :=
  if k = 1 then some (Command.mkOperation ("INML0".toList))
  else if k = 2 then some (Command.mkOperation ("INML1".toList))
  else if k = 3 then some (Command.mkOperation ("INML2".toList))
  else if k = 4 then some (Command.mkOperation ("INML3".toList))
  else if k = 5 then some (Command.mkOperation ("INML4".toList))
  else if k = 6 then some (Command.mkOperation ("INML5".toList))
  else if k = 7 then some (Command.mkOperation ("INML6".toList))
  else if k = 8 then some (Command.mkOperation ("INML7".toList))
  else if k = 9 then some (Command.mkOperation ("INML8".toList))
  else if k = 10 then some (Command.mkOperation ("INML9".toList))
  else none

/-- `Command.Reference.Power = Reference("PW", 1, powerDecode)`. -/
def Command.Reference.Power : Command :=
  Command.mkReference ("PW".toList) 1 powerDecode

/-- `Command.Reference.LensMemory = Reference("INML", 1, lensDecode)`. -/
def Command.Reference.LensMemory : Command :=
  Command.mkReference ("INML".toList) 1 lensDecode

/-- `Command.Reference.Model = Reference("MD", 14, (s) => s)`. -/
def Command.Reference.Model : Command :=
  Command.mkReference ("MD".toList) 14 (fun s => .str s)

/-- `Command.Reference.SoftwareVersion = Reference("IFSV", 6, (s) => s)`. -/
def Command.Reference.SoftwareVersion : Command :=
  Command.mkReference ("IFSV".toList) 6 (fun s => .str s)

/-- `Command.Reference.MacAddress = Reference("LSMA", 12, (s) => s)`. -/
def Command.Reference.MacAddress : Command :=
  Command.mkReference ("LSMA".toList) 12 (fun s => .str s)

/-- `read(n)` on the socket: the first `n` bytes of the remaining input
stream, or `none` when fewer than `n` bytes will ever arrive (promise-socket
then raises `TimeoutError`). -/
def readBytes (n : Nat) (input : List Char) : Option (List Char × List Char) :=
  if n ≤ input.length then some (input.take n, input.drop n) else none

/-- Observable side effects of the client, in order of occurrence. -/
inductive JvcAction where
  | connectAct
  | writeBytes (bs : List Char)
  | destroySock
deriving DecidableEq, Repr

/-- `Jvc._send(command)` on a ready connection, as a function of the bytes
the device supplies.  Returns the bytes written (the request is written
first, unconditionally) and the outcome: the decoded value, or the thrown
error.  Follows `jvc.js` lines 224–257 step by step. -/
def Jvc._send (cmd : Command) (input : List Char) :
    List Char × Except JvcError JSValue :=
  (cmd.request,
    match readBytes cmd.ack.length input with
    | none => .error .timeoutError
    | some (resp, rest) =>
      if resp ≠ cmd.ack then .error (.commandError "Did not receive ACK")
      else
        match cmd.type with
        | .operation => .ok .undefined
        | .reference =>
          match readBytes cmd.response_length rest with
          | none => .error .timeoutError
          | some (resp2, _) =>
            if resp2.take (Command.responseStart cmd).length ≠
                Command.responseStart cmd then
              .error (.commandError "Did not receive response prefix")
            else if resp2.drop (resp2.length - 1) ≠ [ENDB] then
              .error (.commandError "Did not receive response end")
            else
              .ok ((cmd.decode.getD fun _ => .undefined)
                ((resp2.drop (Command.responseStart cmd).length).dropLast)))

/-- `Jvc.send(command)`: the best-effort wrapper (`jvc.js` lines 259–270).
State is whether a socket exists; `connectOK` abstracts whether `connect()`
would succeed when invoked.  Returns the action trace, the final
socket-present flag, and the returned value (`null` on any caught error). -/
def Jvc.send (sockPresent connectOK : Bool) (cmd : Command)
    (input : List Char) : List JvcAction × Bool × JSValue :=
  if sockPresent then
    match Jvc._send cmd input with
    | (w, .ok v) => ([.writeBytes w], true, v)
    | (w, .error _) => ([.writeBytes w, .destroySock], false, .nullv)
  else if connectOK then
    match Jvc._send cmd input with
    | (w, .ok v) => ([.connectAct, .writeBytes w], true, v)
    | (w, .error _) => ([.connectAct, .writeBytes w, .destroySock], false, .nullv)
  else
    ([.connectAct, .destroySock], false, .nullv)

/-- `Jvc.getPower()` = `send(Jvc.Reference.Power)`. -/
def Jvc.getPower (sockPresent connectOK : Bool) (input : List Char) :
    List JvcAction × Bool × JSValue :=
  Jvc.send sockPresent connectOK Command.Reference.Power input

/-- JavaScript `.` in a regex without the `s` flag: any character except a
line terminator. -/
def jsDotMatches (c : Char) : Bool :=
  c ≠ '\n' ∧ c ≠ '\r' ∧ c ≠ Char.ofNat 0x2028 ∧ c ≠ Char.ofNat 0x2029

/-- The capture of `/^ILAFPJ -- (.{4})$/.exec(value)`: defined exactly when
the whole string is the 10-character literal `"ILAFPJ -- "` followed by 4
non-line-terminator characters, and then equal to those 4 characters. -/
def modelRegexCapture (s : List Char) : Option (List Char) :=
  if s.length = 14 ∧ s.take 10 = "ILAFPJ -- ".toList ∧
      (s.drop 10).all jsDotMatches then
    some (s.drop 10)
  else none

/-- The `replace` step of `getModelCode`: drop one leading dash from the
capture (a leading-anchor regex replace with the empty string). -/
def stripLeadingDash (s : List Char) : List Char :=
  match s with
  | '-' :: rest => rest
  | _ => s

/-- The post-processing of `Jvc.getModelCode()` (`jvc.js` lines 280–286)
applied to the value returned by `send`: on a string, the regex capture
with a leading dash stripped, absent (`undefined`, modelled `none`) when
the regex does not match; a `null` from a failed `send` is coerced by
`exec` to the string `"null"`, which never matches, hence also `none`. -/
def modelCodePost (v : JSValue) : Option (List Char) :=
  match v with
  | .str s => (modelRegexCapture s).map stripLeadingDash
  | _ => none

/-- `Jvc.getModelCode()` end to end: `send(Jvc.Reference.Model)` then the
regex post-processing. -/
def Jvc.getModelCode (sockPresent connectOK : Bool) (input : List Char) :
    Option (List Char) :=
  modelCodePost (Jvc.send sockPresent connectOK Command.Reference.Model input).2.2

/-- `Jvc.setLensMemory(memory)` (`jvc.js` lines 302–308): look the slot up
in the `Operation.LensMemory` table; a miss throws
`CommandError("Invalid memory: ...")` before any action, otherwise the
command goes through `send`. -/
def Jvc.setLensMemory (sockPresent connectOK : Bool) (memory : Int)
    (input : List Char) : List JvcAction × Bool × Except JvcError JSValue :=
  match Command.Operation.LensMemory memory with
  | none =>
    ([], sockPresent, .error (.commandError ("Invalid memory: " ++ toString memory)))
  | some cmd =>
    match Jvc.send sockPresent connectOK cmd input with
    | (acts, sock, v) => (acts, sock, .ok v)

/-- One socket: promise-socket state the client observes (its read timeout,
set to 2000 ms on creation by `_connect` and adjustable via `setTimeout`). -/
structure Socket where
  timeoutMs : Nat
deriving DecidableEq, Repr

/-- `Jvc.disconnect()` (`jvc.js` lines 211–216): destroy the socket when
one exists, clear the reference; otherwise do nothing.  Total (never
throws); the returned state is final within the call (synchronous). -/
def Jvc.disconnect (sock : Option Socket) : Option Socket × List JvcAction :=
  match sock with
  | some _ => (none, [.destroySock])
  | none => (none, [])

/-- `Jvc.setTimeout(ms)` (`jvc.js` lines 218–222): forward to the socket
when one exists, otherwise do nothing (the value is not remembered). -/
def Jvc.setTimeout (sock : Option Socket) (ms : Nat) : Option Socket :=
  match sock with
  | some s => some { s with timeoutMs := ms }
  | none => none

/-- The socket-state part of `Jvc._connect` (`jvc.js` lines 162–172):
`disconnect()` then a fresh `PromiseSocket` whose timeout is set to
`2 * 1000` ms, regardless of the previous state. -/
def Jvc._connectSocketSetup (sock : Option Socket) : Option Socket :=
  match Jvc.disconnect sock with
  | (_, _) => some { timeoutMs := 2000 }

/-- Events of `Jvc.connect` (`jvc.js` lines 196–209): a handshake attempt,
or a backoff sleep of the given duration. -/
inductive ConnectEvent where
  | attempt (n : Nat)
  | sleepMs (ms : Nat)
deriving DecidableEq, Repr

/-- The retry loop of `Jvc.connect`, attempts numbered from `a` with `left`
loop iterations remaining; `outcome k` tells whether the `k`-th `_connect`
succeeds.  Each failed attempt is followed by `sleep(attempt * 1100)`
inside the `catch`, including the last one; exhausting the loop throws
`CommandError("Did not connect")`. -/
def Jvc.connectAux (outcome : Nat → Bool) :
    Nat → Nat → List ConnectEvent × Except JvcError Unit
  | _, 0 => ([], .error (.commandError "Did not connect"))
  | a, left + 1 =>
    if outcome a then ([.attempt a], .ok ())
    else
      match Jvc.connectAux outcome (a + 1) left with
      | (evs, r) => (.attempt a :: .sleepMs (a * 1100) :: evs, r)

/-- `Jvc.connect()`: `for (let attempt = 1; attempt <= 10; attempt++)`. -/
def Jvc.connect (outcome : Nat → Bool) :
    List ConnectEvent × Except JvcError Unit :=
  Jvc.connectAux outcome 1 10

/-- Whether a connect event is a backoff sleep. -/
def ConnectEvent.isSleep : ConnectEvent → Bool
  | .sleepMs _ => true
  | .attempt _ => false

deriving instance DecidableEq for Except

/-- Whether a command execution outcome is a thrown error. -/
def isErrResult {α : Type} (r : Except JvcError α) : Bool :=
  match r with
  | .error _ => true
  | .ok _ => false

/-- C3: On a ready connection, `getPower()` writes exactly the request
bytes `"?\x89\x01PW\n"`, and on receiving the ack bytes `"\x06\x89\x01PW\n"`
followed by the response bytes `"@\x89\x01PW1\n"` it returns the `On`
power state. -/
theorem getPower_on_scenario :
    Jvc.getPower true true
      (ACK :: UNIT_ID ++ "PW".toList ++ [ENDB] ++
        (RESPONSE :: UNIT_ID ++ "PW1".toList ++ [ENDB]))
    = ([JvcAction.writeBytes (REFERENCE :: UNIT_ID ++ "PW".toList ++ [ENDB])],
       true, JSValue.power Power.On) := by
  decide

/-- C8: The LensMemory read decode maps every digit `d` in 0–9 to `d + 1`
(slots 1–10), the operation command looked up for slot `d + 1` carries the
zero-based wire digit `d` (code `INML` followed by the digit), and decoding
the wire digit of the command encoded for slot `d + 1` recovers `d + 1`. -/
theorem lensMemory_decode_encode_inverse :
    ∀ d : Fin 10,
      lensDecode [Char.ofNat (48 + d.val)] = JSValue.num ((d.val : Int) + 1) ∧
      (Command.Operation.LensMemory ((d.val : Int) + 1)).map Command.code
        = some ("INML".toList ++ [Char.ofNat (48 + d.val)]) ∧
      (Command.Operation.LensMemory ((d.val : Int) + 1)).map
          (fun c => lensDecode (c.code.drop 4))
        = some (JSValue.num ((d.val : Int) + 1)) := by
  decide

/-- C9: `disconnect()` is idempotent and total: from any state it leaves
the client disconnected (socket reference cleared, within the call); on a
never-opened client it is a no-op, and a second disconnect in a row does
nothing. -/
theorem disconnect_idempotent :
    (∀ s : Option Socket, (Jvc.disconnect s).1 = none) ∧
    Jvc.disconnect (none : Option Socket) = (none, []) ∧
    (∀ s : Option Socket, Jvc.disconnect (Jvc.disconnect s).1 = (none, [])) := by
  refine ⟨fun s => ?_, rfl, fun s => ?_⟩ <;> cases s <;> rfl

/-- C10: `setTimeout(ms)` while no connection exists is a silent no-op
that changes no client state, and a subsequent `_connect` configures the
fresh socket with the default 2000 ms read timeout regardless of the
requested value. -/
theorem setTimeout_disconnected_noop :
    (∀ ms : Nat, Jvc.setTimeout none ms = none) ∧
    (∀ ms : Nat,
      Jvc._connectSocketSetup (Jvc.setTimeout none ms) = some ⟨2000⟩) := by
  exact ⟨fun _ => rfl, fun _ => rfl⟩

/-- C2 counterexample: an out-of-range Power payload is not flagged as an
error.  Decoding the digit `5` yields the JavaScript `undefined` value, and
a full command execution receiving payload `"5"` returns it as a *success*
(`.ok undefined`), not an explicit error result. -/
theorem power_decode_out_of_range_no_error :
    powerDecode ['5'] = JSValue.undefined ∧
    (Jvc._send Command.Reference.Power
      (ACK :: UNIT_ID ++ "PW".toList ++ [ENDB] ++
        (RESPONSE :: UNIT_ID ++ "PW5".toList ++ [ENDB]))).2
      = Except.ok JSValue.undefined := by
  exact ⟨by decide, by decide⟩

/-- C2 amended: the Power reference decode maps the digits 0–4 exactly to
the five states Off, On, Cooling, Warming, Emergency; every other payload
yields the `undefined` value — no Power state is silently produced, but no
explicit error is raised either (the undefined value flows out of command
execution as a successful result). -/
theorem power_decode_amended :
    powerDecode ['0'] = JSValue.power Power.Off ∧
    powerDecode ['1'] = JSValue.power Power.On ∧
    powerDecode ['2'] = JSValue.power Power.Cooling ∧
    powerDecode ['3'] = JSValue.power Power.Warming ∧
    powerDecode ['4'] = JSValue.power Power.Emergency ∧
    ∀ c : List Char, c ≠ ['0'] → c ≠ ['1'] → c ≠ ['2'] → c ≠ ['3'] →
      c ≠ ['4'] → powerDecode c = JSValue.undefined := by
  refine ⟨by decide, by decide, by decide, by decide, by decide, ?_⟩
  intro c h0 h1 h2 h3 h4
  simp [powerDecode, h0, h1, h2, h3, h4]

/-- C2 amended, witness: the out-of-range payload `"9"` decodes to the
undefined value. -/
theorem power_decode_amended_witness :
    powerDecode ['9'] = JSValue.undefined :=
  power_decode_amended.2.2.2.2.2 ['9'] (by decide) (by decide) (by decide)
    (by decide) (by decide)

/-- C1 counterexample: with every handshake attempt failing, the connect
loop performs 10 backoff sleeps, not 9; the final event of the trace is an
11000 ms sleep occurring *after* the 10th (last) attempt, and the sleep
immediately before the 10th attempt is 9900 ms, not 11000 ms. -/
theorem connect_allfail_ten_sleeps_refutes :
    ((Jvc.connect (fun _ => false)).1.filter ConnectEvent.isSleep).length = 10 ∧
    (Jvc.connect (fun _ => false)).1.getLast?
      = some (ConnectEvent.sleepMs 11000) ∧
    (Jvc.connect (fun _ => false)).1.get? 17 = some (ConnectEvent.sleepMs 9900) ∧
    (Jvc.connect (fun _ => false)).1.get? 18 = some (ConnectEvent.attempt 10) := by
  exact ⟨by decide, by decide, by decide, by decide⟩

/-- C1 amended: if every handshake attempt fails, `connect()` performs
exactly 10 attempts, sleeping `attempt * 1100` ms after each failed attempt
(1100, 2200, …, 11000 ms — so 9900 ms before the 10th attempt and a final
11000 ms sleep after it), and then fails fatally with the
"Did not connect" error. -/
theorem connect_allfail_trace (outcome : Nat → Bool)
    (h : ∀ k, 1 ≤ k → k ≤ 10 → outcome k = false) :
    Jvc.connect outcome =
      ([.attempt 1, .sleepMs 1100, .attempt 2, .sleepMs 2200,
        .attempt 3, .sleepMs 3300, .attempt 4, .sleepMs 4400,
        .attempt 5, .sleepMs 5500, .attempt 6, .sleepMs 6600,
        .attempt 7, .sleepMs 7700, .attempt 8, .sleepMs 8800,
        .attempt 9, .sleepMs 9900, .attempt 10, .sleepMs 11000],
       .error (.commandError "Did not connect")) := by
  have h1 := h 1 (by omega) (by omega)
  have h2 := h 2 (by omega) (by omega)
  have h3 := h 3 (by omega) (by omega)
  have h4 := h 4 (by omega) (by omega)
  have h5 := h 5 (by omega) (by omega)
  have h6 := h 6 (by omega) (by omega)
  have h7 := h 7 (by omega) (by omega)
  have h8 := h 8 (by omega) (by omega)
  have h9 := h 9 (by omega) (by omega)
  have h10 := h 10 (by omega) (by omega)
  simp [Jvc.connect, Jvc.connectAux, h1, h2, h3, h4, h5, h6, h7, h8, h9, h10]

/-- C1 amended, witness: the trace and fatal error at the concrete
always-failing outcome. -/
theorem connect_allfail_trace_witness :
    Jvc.connect (fun _ => false) =
      ([.attempt 1, .sleepMs 1100, .attempt 2, .sleepMs 2200,
        .attempt 3, .sleepMs 3300, .attempt 4, .sleepMs 4400,
        .attempt 5, .sleepMs 5500, .attempt 6, .sleepMs 6600,
        .attempt 7, .sleepMs 7700, .attempt 8, .sleepMs 8800,
        .attempt 9, .sleepMs 9900, .attempt 10, .sleepMs 11000],
       .error (.commandError "Did not connect")) :=
  connect_allfail_trace (fun _ => false) (fun _ _ _ => rfl)

/-- C7: `setLensMemory` with a slot outside 1–10 throws the
invalid-argument `CommandError` before any action (no bytes written, the
connection state unchanged); for every slot `d + 1` with `d` in 0–9 the
looked-up operation command's request is `"!\x89\x01INML" ++ digit d ++ "\n"`;
in particular slot 3 sends exactly `"!\x89\x01INML2\n"`. -/
theorem setLensMemory_range_check :
    (∀ (sockPresent connectOK : Bool) (memory : Int) (input : List Char),
        memory < 1 ∨ 10 < memory →
        Jvc.setLensMemory sockPresent connectOK memory input
          = ([], sockPresent,
             .error (.commandError ("Invalid memory: " ++ toString memory)))) ∧
    (∀ d : Fin 10,
      (Command.Operation.LensMemory ((d.val : Int) + 1)).map Command.request
        = some (OPERATION :: UNIT_ID ++ "INML".toList ++
            [Char.ofNat (48 + d.val)] ++ [ENDB])) ∧
    Jvc.setLensMemory true true 3 (ACK :: UNIT_ID ++ "IN".toList ++ [ENDB])
      = ([JvcAction.writeBytes (OPERATION :: UNIT_ID ++ "INML2".toList ++ [ENDB])],
         true, Except.ok JSValue.undefined) := by
  refine ⟨?_, by decide, by decide⟩
  intro sockPresent connectOK memory input hout
  have e1 : memory ≠ 1 := by omega
  have e2 : memory ≠ 2 := by omega
  have e3 : memory ≠ 3 := by omega
  have e4 : memory ≠ 4 := by omega
  have e5 : memory ≠ 5 := by omega
  have e6 : memory ≠ 6 := by omega
  have e7 : memory ≠ 7 := by omega
  have e8 : memory ≠ 8 := by omega
  have e9 : memory ≠ 9 := by omega
  have e10 : memory ≠ 10 := by omega
  have hnone : Command.Operation.LensMemory memory = none := by
    simp [Command.Operation.LensMemory, e1, e2, e3, e4, e5, e6, e7, e8, e9, e10]
  simp [Jvc.setLensMemory, hnone]

/-- C7 witness: slot 11 fails immediately with the invalid-argument error,
writing nothing and leaving the connection state unchanged. -/
theorem setLensMemory_range_check_witness :
    Jvc.setLensMemory true true 11 []
      = ([], true,
         Except.error (JvcError.commandError "Invalid memory: 11")) :=
  setLensMemory_range_check.1 true true 11 [] (Or.inr (by decide))

/-- C5: `_send` accepts the acknowledgement iff the received bytes equal
the expected frame `ACK ++ unit-id ++ code[0:2] ++ terminator` byte for
byte; on any mismatch it throws the `CommandError "Did not receive ACK"`
to its caller, and that error arises in no other way. -/
theorem ack_exact_match (cmd : Command) (input : List Char)
    (h : cmd.ack.length ≤ input.length) :
    ((Jvc._send cmd input).2
        = Except.error (JvcError.commandError "Did not receive ACK")) ↔
      input.take cmd.ack.length ≠ cmd.ack := by
  have hr : readBytes cmd.ack.length input
      = some (input.take cmd.ack.length, input.drop cmd.ack.length) := by
    simp [readBytes, h]
  by_cases hm : input.take cmd.ack.length = cmd.ack
  · simp only [hm, ne_eq, not_true_eq_false, iff_false]
    simp only [Jvc._send, hr]
    rw [if_neg (not_not_intro hm)]
    cases htype : cmd.type with
    | operation => simp
    | reference =>
      cases hrb : readBytes cmd.response_length (input.drop cmd.ack.length) with
      | none => simp
      | some p =>
        obtain ⟨resp2, rest2⟩ := p
        by_cases hp : resp2.take (Command.responseStart cmd).length
            = Command.responseStart cmd
        · by_cases he : resp2.drop (resp2.length - 1) = [ENDB]
          · simp [hp, he]
          · simp [hp, he]
        · simp [hp]
  · simp only [ne_eq, hm, not_false_eq_true, iff_true]
    simp only [Jvc._send, hr]
    rw [if_pos hm]

/-- C5 witness: six wrong bytes in place of the Power ack produce exactly
the ack-mismatch error. -/
theorem ack_exact_match_witness :
    (Jvc._send Command.Reference.Power ['x', 'x', 'x', 'x', 'x', 'x']).2
      = Except.error (JvcError.commandError "Did not receive ACK") :=
  (ack_exact_match Command.Reference.Power ['x', 'x', 'x', 'x', 'x', 'x']
    (by decide)).mpr (by decide)

/-- C6: the best-effort `send()` wrapper: when connecting fails or the
low-level command execution throws, `send` catches, destroys the socket
(final state disconnected) and returns `null`; and whenever no connection
exists it first establishes one (the connect action precedes any write). -/
theorem send_best_effort (sockPresent connectOK : Bool) (cmd : Command)
    (input : List Char) :
    ((isErrResult (Jvc._send cmd input).2 = true ∨
        (sockPresent = false ∧ connectOK = false)) →
      (Jvc.send sockPresent connectOK cmd input).2.2 = JSValue.nullv ∧
      (Jvc.send sockPresent connectOK cmd input).2.1 = false ∧
      JvcAction.destroySock ∈ (Jvc.send sockPresent connectOK cmd input).1) ∧
    (sockPresent = false →
      (Jvc.send sockPresent connectOK cmd input).1.head?
        = some JvcAction.connectAct) := by
  rcases hs : Jvc._send cmd input with ⟨w, r⟩
  cases sockPresent <;> cases connectOK <;> cases r <;>
    simp [Jvc.send, hs, isErrResult]

/-- C6 witness: an immediate read timeout (empty device stream) makes
`send` return `null` with the socket destroyed; with no prior connection
the connect action comes first. -/
theorem send_best_effort_witness :
    (Jvc.send true true Command.Reference.Power []).2.2 = JSValue.nullv ∧
    JvcAction.destroySock ∈ (Jvc.send true true Command.Reference.Power []).1 ∧
    (Jvc.send false false Command.Reference.Power []).1.head?
      = some JvcAction.connectAct :=
  ⟨((send_best_effort true true Command.Reference.Power []).1
      (Or.inl (by decide))).1,
   ((send_best_effort true true Command.Reference.Power []).1
      (Or.inl (by decide))).2.2,
   (send_best_effort false false Command.Reference.Power []).2 rfl⟩

/-- Executing a reference command against a well-formed device stream
(matching ack, then the response frame carrying `payload` of the declared
length) writes the request and succeeds with the decoded payload. -/
theorem send_reference_ok (cmd : Command) (len : Nat)
    (dec : List Char → JSValue) (payload : List Char)
    (htype : cmd.type = .reference) (hlenf : cmd.length = some len)
    (hdec : cmd.decode = some dec)
    (hS : (Command.responseStart cmd).length = 5)
    (hlen : payload.length = len) :
    Jvc._send cmd
      (cmd.ack ++ (Command.responseStart cmd ++ (payload ++ [ENDB])))
      = (cmd.request, Except.ok (dec payload)) := by
  have hc1 : cmd.ack.length ≤
      (cmd.ack ++ (Command.responseStart cmd ++ (payload ++ [ENDB]))).length := by
    simp
  have h1 : readBytes cmd.ack.length
      (cmd.ack ++ (Command.responseStart cmd ++ (payload ++ [ENDB])))
      = some (cmd.ack, Command.responseStart cmd ++ (payload ++ [ENDB])) := by
    simp only [readBytes, if_pos hc1, List.take_left, List.drop_left]
  have hR : (Command.responseStart cmd ++ (payload ++ [ENDB])).length
      = cmd.response_length := by
    simp [Command.response_length, hlenf, hS, hlen]
    omega
  have h2 : readBytes cmd.response_length
      (Command.responseStart cmd ++ (payload ++ [ENDB]))
      = some (Command.responseStart cmd ++ (payload ++ [ENDB]), []) := by
    simp only [readBytes, ← hR, if_pos (Nat.le_refl _)]
    rw [List.take_length, List.drop_length]
  have hlast : List.drop
      ((Command.responseStart cmd ++ (payload ++ [ENDB])).length - 1)
      (Command.responseStart cmd ++ (payload ++ [ENDB])) = [ENDB] := by
    rw [← List.append_assoc]
    have hl : ((Command.responseStart cmd ++ payload) ++ [ENDB]).length - 1
        = (Command.responseStart cmd ++ payload).length := by
      simp
    rw [hl, List.drop_left]
  have hdecval : (List.drop (Command.responseStart cmd).length
      (Command.responseStart cmd ++ (payload ++ [ENDB]))).dropLast
      = payload := by
    rw [List.drop_left, List.dropLast_concat]
  simp only [Jvc._send, h1, htype, h2, hdec, hdecval, List.take_left,
    Prod.mk.injEq, ne_eq, not_true_eq_false, if_false, Option.getD_some,
    if_neg, true_and]
  simp

/-- C4 counterexample: the claim's examples fail on the code.  The padded
payload `"ILAFPJ -- XH4 "` makes `getModelCode` return `"XH4 "` — the
trailing padding space is kept, not `"XH4"` — and the 15-character payload
`"ILAFPJ -- -RS10"` does not match the anchored 4-character pattern at
all, so it yields the absent result instead of a dash-stripped code. -/
theorem getModelCode_examples_refuted :
    (Jvc.getModelCode true true
      (Command.Reference.Model.ack ++
        (Command.responseStart Command.Reference.Model ++
          ("ILAFPJ -- XH4 ".toList ++ [ENDB])))
      ≠ some ("XH4".toList)) ∧
    modelCodePost (JSValue.str ("ILAFPJ -- XH4 ".toList))
      = some ("XH4 ".toList) ∧
    modelCodePost (JSValue.str ("ILAFPJ -- -RS10".toList)) = none := by
  exact ⟨by decide, by decide, by decide⟩

/-- C4 amended: for every 14-character payload, `getModelCode` returns
exactly the anchored-regex capture with one leading dash stripped and no
other post-processing (so `"ILAFPJ -- XH4 "` yields `"XH4 "` with its
padding space, and `"ILAFPJ -- -RS1"` yields `"RS1"`), and for every
non-matching payload — including the 15-character `"ILAFPJ -- -RS10"`,
which cannot match — it returns an absent result, not an error. -/
theorem getModelCode_amended (payload : List Char)
    (hlen : payload.length = 14) :
    (Jvc.getModelCode true true
      (Command.Reference.Model.ack ++
        (Command.responseStart Command.Reference.Model ++ (payload ++ [ENDB])))
      = (modelRegexCapture payload).map stripLeadingDash) ∧
    modelCodePost (JSValue.str ("ILAFPJ -- -RS1".toList))
      = some ("RS1".toList) ∧
    modelCodePost (JSValue.str ("ILAFPJ -- XH4 ".toList))
      = some ("XH4 ".toList) ∧
    modelCodePost (JSValue.str ("ILAFPJ -- -RS10".toList)) = none := by
  refine ⟨?_, by decide, by decide, by decide⟩
  have hsend := send_reference_ok Command.Reference.Model 14
      (fun s => JSValue.str s) payload rfl rfl rfl (by decide) hlen
  simp [Jvc.getModelCode, Jvc.send, hsend, modelCodePost]

/-- C4 amended, witness: the padded payload yields its capture with the
trailing space kept. -/
theorem getModelCode_amended_witness :
    Jvc.getModelCode true true
      (Command.Reference.Model.ack ++
        (Command.responseStart Command.Reference.Model ++
          ("ILAFPJ -- XH4 ".toList ++ [ENDB])))
      = some ("XH4 ".toList) := by
  have h := (getModelCode_amended ("ILAFPJ -- XH4 ".toList) (by decide)).1
  rw [h]
  decide
